import Mathlib

/-!
# Verification of the Shaya Sussman content-generator client SDK

Shallow embedding of the JavaScript/TypeScript client library
(`src/client/shaya-content-client.js` and `src/client/shaya-content-client.ts`):
the request client (`ShayaContentClient`) and the React lifecycle adapter
(`useShayaContent`), together with theorems settling the specification's
claims about them.
-/

set_option autoImplicit false

namespace ShayaClient

/-! ## JSON / JavaScript value model

The client manipulates only a small fragment of JSON values: strings,
booleans, `null`, and objects (request bodies, error payloads, responses).
We model that fragment; object fields keep their insertion order, matching
JavaScript object-literal semantics. -/

inductive Json where
  | null : Json
  | bool (b : Bool) : Json
  | str (s : String) : Json
  | obj (fields : List (String × Json)) : Json

/-- JavaScript truthiness of a value (`undefined` is handled by callers via
`Option Json`, where `none` is falsy). -/
def jsTruthy : Json → Bool
  | .null => false
  | .bool b => b
  | .str s => s ≠ ""
  | .obj _ => true

/-- JavaScript `String(v)` coercion on the modelled fragment. -/
def jsToString : Json → String
  | .null => "null"
  | .bool true => "true"
  | .bool false => "false"
  | .str s => s
  | .obj _ => "[object Object]"

/-- JavaScript property access `j.k`: `some` is the field's value, `none` is
`undefined` (field absent, or access on a non-object primitive). -/
def jsField (j : Json) (k : String) : Option Json :=
  match j with
  | .obj fields => (fields.find? (fun p => p.1 == k)).map (fun p => p.2)
  | _ => none

/-! ## Header map model

`request` builds a plain JavaScript object of headers:
`{ 'Content-Type': 'application/json', ...options.headers }` followed by
`headers['X-API-Key'] = this.apiKey` when a key is configured.  We model the
object as an association list with unique keys; `hset` is property
assignment (overwrite if present, append otherwise) and `hget` is lookup. -/

def hset : List (String × String) → String → String → List (String × String)
  | [], k, v => [(k, v)]
  | (k', v') :: rest, k, v =>
      if k' = k then (k, v) :: rest else (k', v') :: hset rest k v

def hget (m : List (String × String)) (k : String) : Option String :=
  (m.find? (fun p => p.1 == k)).map (fun p => p.2)

/-- The header object dispatched by `request` (both JS and TS variants have
identical code): `Content-Type` default first, then the caller's headers
spread over it, then — after the spread — the configured credential written
into `X-API-Key`. -/
def buildHeaders (apiKey : Option String) (caller : List (String × String)) :
    List (String × String) :=
  let base := [("Content-Type", "application/json")]
  let merged := caller.foldl (fun m p => hset m p.1 p.2) base
  match apiKey with
  | some k => hset merged "X-API-Key" k
  | none => merged

/-! ## Base-address normalization and URLs -/

/-- The last character of `s` is `'/'` (the regex `/\/$/` matches). -/
def endsWithSlash (s : String) : Bool :=
  s.data.getLast? == some '/'

/-- Model of `baseUrl.replace(/\/$/, '')`: remove one trailing `'/'` if present
(the regex matches at most one final slash and deletes it). -/
def stripTrailingSlash (s : String) : String :=
  if endsWithSlash s then String.mk s.data.dropLast else s

/-- The URL `request` dispatches to: the normalized base address (stored at
construction) concatenated with the endpoint path. -/
def requestUrl (baseUrl endpoint : String) : String :=
  stripTrailingSlash baseUrl ++ endpoint

/-! ## The response-handling core of `request`

The transport (`fetch` / `response.json()`) is abstracted as a
`FetchResponse`: the HTTP status plus the outcome of parsing the body as
JSON (`none` when the body is not valid JSON, in which case
`response.json()` rejects and the `.catch` substitutes
`{ detail: 'Unknown error' }`). -/

structure FetchResponse where
  status : Nat
  jsonBody : Option Json

/-- Value of `response.ok` per the fetch specification: status in 200–299. -/
def respOk (status : Nat) : Bool :=
  decide (200 ≤ status) && decide (status < 300)

inductive RequestFailure where
  | httpError (message : String) : RequestFailure
  | parseError : RequestFailure

/-- The message of the error thrown on a non-2xx response:
`new Error(error.detail || ` + "`HTTP ${response.status}`" + `)`, where
`error` is the parsed body or the `.catch` fallback `{detail: 'Unknown error'}`. -/
def errorMessage (status : Nat) (parsed : Option Json) : String :=
  let errPayload := parsed.getD (Json.obj [("detail", Json.str "Unknown error")])
  match jsField errPayload "detail" with
  | some d => if jsTruthy d then jsToString d else "HTTP " ++ toString status
  | none => "HTTP " ++ toString status

/-- The response-handling tail of `ShayaContentClient.request`: non-2xx
statuses raise an `Error` built by `errorMessage`; 2xx responses resolve to
the parsed JSON body (a 2xx body that is not valid JSON makes the final
`response.json()` reject with a parse failure). -/
def performRequest (resp : FetchResponse) : Except RequestFailure Json :=
  if respOk resp.status then
    match resp.jsonBody with
    | some j => Except.ok j
    | none => Except.error RequestFailure.parseError
  else
    Except.error (RequestFailure.httpError (errorMessage resp.status resp.jsonBody))

/-! ## `generate` request construction

An optional JavaScript string argument can be absent/`undefined` (the
default parameter applies), `null`, or a string. -/

inductive JsOpt where
  | undef : JsOpt
  | null : JsOpt
  | str (s : String) : JsOpt
  deriving DecidableEq

/-- Default-parameter semantics: the default replaces the argument exactly
when it is absent or `undefined`. -/
def jsDefaultStr (d : String) : JsOpt → JsOpt
  | .undef => .str d
  | v => v

/-- Body built by `generate` in shaya-content-client.js:
`additional_context: additionalContext` after the default parameter
`additionalContext = ''` — so an explicit `null` is serialized as `null`. -/
def generateBodyJs (topic : String) (format : Option String) (ctx : JsOpt)
    (promptOnly : Option Bool) : Json :=
  let ctxVal : Json :=
    match jsDefaultStr "" ctx with
    | .undef => Json.null
    | .null => Json.null
    | .str s => Json.str s
  Json.obj
    [ ("topic", Json.str topic)
    , ("format", Json.str (format.getD "article"))
    , ("additional_context", ctxVal)
    , ("prompt_only", Json.bool (promptOnly.getD false)) ]

/-- Body built by `generate` in shaya-content-client.ts:
`additional_context: additionalContext || ''` — every falsy value
(`undefined`, `null`, `''`) becomes the empty string. -/
def generateBodyTs (topic : String) (format : Option String) (ctx : JsOpt)
    (promptOnly : Option Bool) : Json :=
  let ctxVal : Json :=
    Json.str
      (match ctx with
       | .undef => ""
       | .null => ""
       | .str s => if s = "" then "" else s)
  Json.obj
    [ ("topic", Json.str topic)
    , ("format", Json.str (format.getD "article"))
    , ("additional_context", ctxVal)
    , ("prompt_only", Json.bool (promptOnly.getD false)) ]

/-- The full HTTP request `generate` hands to `fetch`. -/
structure RequestSpec where
  url : String
  method : String
  headers : List (String × String)
  body : Option Json

/-- Request dispatched by `generate` (JS variant): POST to
`baseUrl + '/generate'` with the default headers and the serialized body. -/
def generateRequestJs (baseUrl : String) (apiKey : Option String) (topic : String)
    (format : Option String) (ctx : JsOpt) (promptOnly : Option Bool) : RequestSpec :=
  { url := requestUrl baseUrl "/generate"
  , method := "POST"
  , headers := buildHeaders apiKey []
  , body := some (generateBodyJs topic format ctx promptOnly) }

/-- Request dispatched by `generate` (TS variant). -/
def generateRequestTs (baseUrl : String) (apiKey : Option String) (topic : String)
    (format : Option String) (ctx : JsOpt) (promptOnly : Option Bool) : RequestSpec :=
  { url := requestUrl baseUrl "/generate"
  , method := "POST"
  , headers := buildHeaders apiKey []
  , body := some (generateBodyTs topic format ctx promptOnly) }

/-- Result of `generate` for a given transport response: the raw
`performRequest` outcome, resolved with the parsed JSON. -/
def generateResult (resp : FetchResponse) : Except RequestFailure Json :=
  performRequest resp

/-- Request of `generateArticle(topic, context)`: the method calls
`this.generate(topic, 'article', context)` (after its own
`context = ''` default) and returns `response.content`. -/
def generateArticleRequestJs (baseUrl : String) (apiKey : Option String)
    (topic : String) (ctx : JsOpt) : RequestSpec :=
  generateRequestJs baseUrl apiKey topic (some "article") (jsDefaultStr "" ctx) none

/-- Resolution of `generateArticle`: the `content` field of `generate`'s
result (`none` meaning `undefined` when the field is missing); rejections
of `generate` propagate unchanged. -/
def generateArticleResult (resp : FetchResponse) : Except RequestFailure (Option Json) :=
  (generateResult resp).map (fun r => jsField r "content")

/-! ## Lifecycle adapter (`useShayaContent` hook)

The hook's observable state is the triple of React state cells
`isLoading` / `error` / `content`.  `error` holds the message of the
normalized `Error`; `content` holds the value passed to `setContent`
(`none` for the initial `null`). -/

structure LifecycleState where
  isLoading : Bool
  error : Option String
  content : Option Json

/-- Initial `useState` values: `isLoading=false`, `error=null`, `content=null`. -/
def initialLifecycleState : LifecycleState :=
  { isLoading := false, error := none, content := none }

/-- The prologue shared verbatim by every tracked method (`generate`,
`getPrompt`, `getVoiceProfile`, `getFormats`):
`setIsLoading(true); setError(null)` before awaiting the client call. -/
def trackedStart (s : LifecycleState) : LifecycleState :=
  { s with isLoading := true, error := none }

/-- A JavaScript thrown value: either an `Error` instance (with its
message) or an arbitrary non-`Error` value. -/
inductive JsThrown where
  | errorInstance (message : String) : JsThrown
  | nonError (v : Json) : JsThrown

/-- Model of `err instanceof Error ? err : new Error(String(err))`: the message of
the normalized failure. -/
def normalizeThrown : JsThrown → String
  | .errorInstance m => m
  | .nonError v => jsToString v

/-- Outcome of the awaited client call inside a tracked method. -/
inductive CallOutcome where
  | success (response : Json) : CallOutcome
  | failure (thrown : JsThrown) : CallOutcome

/-- Settlement of the hook's `generate`: on success
`setContent(response.content)` and return the response; on failure
normalize, `setError`, and re-throw; `finally { setIsLoading(false) }`. -/
def generateSettle (s : LifecycleState) (o : CallOutcome) :
    LifecycleState × Except String Json :=
  match o with
  | .success r =>
      ({ s with isLoading := false, content := jsField r "content" }, Except.ok r)
  | .failure t =>
      let m := normalizeThrown t
      ({ s with isLoading := false, error := some m }, Except.error m)

/-- A full tracked `generate` call: prologue, await, settlement. -/
def hookGenerate (s : LifecycleState) (o : CallOutcome) :
    LifecycleState × Except String Json :=
  generateSettle (trackedStart s) o

/-- Settlement of the hook's `getVoiceProfile`: same pattern as `generate`
but the result is returned without touching `content`. -/
def getVoiceProfileSettle (s : LifecycleState) (o : CallOutcome) :
    LifecycleState × Except String Json :=
  match o with
  | .success r => ({ s with isLoading := false }, Except.ok r)
  | .failure t =>
      let m := normalizeThrown t
      ({ s with isLoading := false, error := some m }, Except.error m)

/-- A full tracked `getVoiceProfile` call. -/
def hookGetVoiceProfile (s : LifecycleState) (o : CallOutcome) :
    LifecycleState × Except String Json :=
  getVoiceProfileSettle (trackedStart s) o

/-- Model of `clearError = () => setError(null)`. -/
def clearError (s : LifecycleState) : LifecycleState :=
  { s with error := none }

/-- Model of `clearContent = () => setContent(null)`. -/
def clearContent (s : LifecycleState) : LifecycleState :=
  { s with content := none }

/-! ## Substring containment (used to state message/status claims) -/

/-- Tests whether the first character list starts the second. -/
def prefixMatches : List Char → List Char → Bool
  | [], _ => true
  | _ :: _, [] => false
  | c :: cs, d :: ds => c == d && prefixMatches cs ds

/-- Holds when `s` contains `pat` as a contiguous substring. -/
def containsSubstr (s pat : String) : Bool :=
  (List.range (s.data.length + 1)).any (fun i => prefixMatches pat.data (s.data.drop i))

/-! ## Helper lemmas about the header object -/

theorem hget_cons_self (k v : String) (tl : List (String × String)) :
    hget ((k, v) :: tl) k = some v := by
  simp [hget, List.find?]

theorem hget_cons_ne {a k : String} (b : String) (tl : List (String × String))
    (h : a ≠ k) : hget ((a, b) :: tl) k = hget tl k := by
  have hb : (a == k) = false := beq_eq_false_iff_ne.mpr h
  simp [hget, List.find?, hb]

theorem hget_hset_self (m : List (String × String)) (k v : String) :
    hget (hset m k v) k = some v := by
  induction m with
  | nil => exact hget_cons_self k v []
  | cons hd tl ih =>
      obtain ⟨a, b⟩ := hd
      by_cases h : a = k
      · subst h
        have hs : hset ((a, b) :: tl) a v = (a, v) :: tl := by simp [hset]
        rw [hs]
        exact hget_cons_self a v tl
      · simp only [hset, if_neg h]
        rw [hget_cons_ne b _ h]
        exact ih

theorem hget_hset_other (m : List (String × String)) (k v k' : String)
    (hne : k' ≠ k) : hget (hset m k v) k' = hget m k' := by
  induction m with
  | nil =>
      show hget [(k, v)] k' = hget [] k'
      rw [hget_cons_ne v [] (Ne.symm hne)]
  | cons hd tl ih =>
      obtain ⟨a, b⟩ := hd
      by_cases h : a = k
      · subst h
        have hs : hset ((a, b) :: tl) a v = (a, v) :: tl := by simp [hset]
        rw [hs]
        rw [hget_cons_ne v tl (Ne.symm hne), hget_cons_ne b tl (Ne.symm hne)]
      · simp only [hset, if_neg h]
        by_cases h' : a = k'
        · subst h'
          rw [hget_cons_self a b (hset tl k v), hget_cons_self a b tl]
        · rw [hget_cons_ne b _ h', hget_cons_ne b _ h']
          exact ih

/-- The spec's normalization of the optional `additionalContext` argument
(`additionalContext ?? ''`): absent becomes the empty string; a supplied
string is kept. -/
def specAdditionalContext : JsOpt → String
  | .undef => ""
  | .null => ""
  | .str s => s

/-! ## Claim theorems -/

/-- C1, counterexample: the claim says a caller-supplied `X-API-Key` header
takes precedence over the configured credential; in the code the credential
is written into the header object after the spread, so on a client built
with credential `"secret"` a caller-supplied `X-API-Key: caller-value` is
not the value dispatched. -/
theorem c1_counterexample :
    hget (buildHeaders (some "secret") [("X-API-Key", "caller-value")]) "X-API-Key"
        = some "secret" ∧
    hget (buildHeaders (some "secret") [("X-API-Key", "caller-value")]) "X-API-Key"
        ≠ some "caller-value" := by
  exact ⟨rfl, by decide⟩

/-- C1, amended: caller-supplied headers take precedence over the
`Content-Type: application/json` default, but the configured credential is
assigned after the merge, so the dispatched `X-API-Key` is always the
client's credential whenever one is configured, regardless of any
caller-supplied value. -/
theorem c1_header_merge :
    (∀ (k : String) (caller : List (String × String)),
        hget (buildHeaders (some k) caller) "X-API-Key" = some k) ∧
    (∀ (apiKey : Option String) (caller : List (String × String)) (v : String),
        hget (buildHeaders apiKey (caller ++ [("Content-Type", v)])) "Content-Type"
          = some v) := by
  constructor
  · intro k caller
    simp only [buildHeaders]
    exact hget_hset_self _ _ _
  · intro apiKey caller v
    simp only [buildHeaders, List.foldl_append, List.foldl_cons, List.foldl_nil]
    cases apiKey with
    | none => exact hget_hset_self _ _ _
    | some k =>
        rw [hget_hset_other _ _ _ _ (by decide)]
        exact hget_hset_self _ _ _

/-- C2, counterexample: for a non-2xx response whose body is not valid
JSON, the `.catch` fallback supplies `detail: 'Unknown error'`, which is
truthy, so the thrown message is `"Unknown error"` — it does not contain
the numeric status code (here 404). -/
theorem c2_counterexample :
    performRequest ⟨404, none⟩
        = Except.error (RequestFailure.httpError "Unknown error") ∧
    containsSubstr "Unknown error" "404" = false := by
  exact ⟨rfl, by decide⟩

/-- C2, amended: for every non-2xx response whose body cannot be parsed as
JSON, the failure's message is exactly the generic string
`"Unknown error"`; the `HTTP <status>` fallback never fires on this path
because the catch-substituted `detail` is a non-empty string. -/
theorem c2_unparsable_body_message (resp : FetchResponse)
    (hok : respOk resp.status = false) (hbody : resp.jsonBody = none) :
    performRequest resp = Except.error (RequestFailure.httpError "Unknown error") := by
  unfold performRequest
  rw [hbody, hok]
  rfl

theorem c2_unparsable_body_message_witness :
    respOk 404 = false ∧ (⟨404, none⟩ : FetchResponse).jsonBody = none ∧
    performRequest ⟨404, none⟩
      = Except.error (RequestFailure.httpError "Unknown error") :=
  ⟨by decide, rfl, c2_unparsable_body_message ⟨404, none⟩ (by decide) rfl⟩

/-- C4, counterexample: the claim quantifies over every `detail` value `D`;
for the empty string (a falsy value) the code falls back to
`HTTP <status>` instead of raising message `""`. -/
theorem c4_counterexample :
    performRequest ⟨400, some (Json.obj [("detail", Json.str "")])⟩
        = Except.error (RequestFailure.httpError "HTTP 400") ∧
    ("HTTP 400" : String) ≠ "" := by
  exact ⟨rfl, by decide⟩

/-- C4, amended: for every non-2xx response whose body parses as JSON with
a `detail` field holding a non-empty string `D`, the failure's message is
exactly `D` (for an empty `D` the message is the `HTTP <status>` fallback
instead). -/
theorem c4_detail_message (resp : FetchResponse) (j : Json) (D : String)
    (hok : respOk resp.status = false) (hbody : resp.jsonBody = some j)
    (hdetail : jsField j "detail" = some (Json.str D)) (hne : D ≠ "") :
    performRequest resp = Except.error (RequestFailure.httpError D) := by
  have hmsg : errorMessage resp.status (some j) = D := by
    simp [errorMessage, Option.getD_some, hdetail, jsTruthy, jsToString, hne]
  unfold performRequest
  rw [hbody, hok, hmsg]
  rfl

theorem c4_detail_message_witness :
    respOk 401 = false ∧
    jsField (Json.obj [("detail", Json.str "Invalid API key")]) "detail"
      = some (Json.str "Invalid API key") ∧
    ("Invalid API key" : String) ≠ "" ∧
    performRequest ⟨401, some (Json.obj [("detail", Json.str "Invalid API key")])⟩
      = Except.error (RequestFailure.httpError "Invalid API key") :=
  ⟨by decide, rfl, by decide,
    c4_detail_message ⟨401, some (Json.obj [("detail", Json.str "Invalid API key")])⟩
      (Json.obj [("detail", Json.str "Invalid API key")]) "Invalid API key"
      (by decide) rfl rfl (by decide)⟩

/-- C3: for every valid call (topic, optional format, optional
additionalContext — absent/undefined or a string, never `null` — and
optional promptOnly), both client variants dispatch `POST` to
`/generate` with body `{topic, format, additional_context, prompt_only}`
where `additional_context` is the given context normalized to `""` when
absent (never `null`/`undefined`), `format` defaults to `"article"` and
`prompt_only` defaults to `false`. -/
theorem c3_generate_body (baseUrl : String) (apiKey : Option String)
    (topic : String) (format : Option String) (ctx : JsOpt)
    (promptOnly : Option Bool) (hvalid : ctx ≠ JsOpt.null) :
    generateBodyJs topic format ctx promptOnly
        = Json.obj
            [ ("topic", Json.str topic)
            , ("format", Json.str (format.getD "article"))
            , ("additional_context", Json.str (specAdditionalContext ctx))
            , ("prompt_only", Json.bool (promptOnly.getD false)) ] ∧
    generateBodyTs topic format ctx promptOnly
        = Json.obj
            [ ("topic", Json.str topic)
            , ("format", Json.str (format.getD "article"))
            , ("additional_context", Json.str (specAdditionalContext ctx))
            , ("prompt_only", Json.bool (promptOnly.getD false)) ] ∧
    (generateRequestJs baseUrl apiKey topic format ctx promptOnly).method = "POST" ∧
    (generateRequestJs baseUrl apiKey topic format ctx promptOnly).url
        = requestUrl baseUrl "/generate" ∧
    (generateRequestJs baseUrl apiKey topic format ctx promptOnly).body
        = some (generateBodyJs topic format ctx promptOnly) := by
  refine ⟨?_, ?_, rfl, rfl, rfl⟩
  · cases ctx with
    | undef => rfl
    | null => exact absurd rfl hvalid
    | str s => rfl
  · cases ctx with
    | undef => rfl
    | null => exact absurd rfl hvalid
    | str s =>
        have hs : (if s = "" then "" else s) = s := by
          by_cases h : s = "" <;> simp [h]
        simp [generateBodyTs, specAdditionalContext, hs]

theorem c3_generate_body_witness :
    (JsOpt.undef ≠ JsOpt.null) ∧
    generateBodyJs "Finding inner peace" none JsOpt.undef none
        = Json.obj
            [ ("topic", Json.str "Finding inner peace")
            , ("format", Json.str "article")
            , ("additional_context", Json.str "")
            , ("prompt_only", Json.bool false) ] :=
  ⟨by decide,
    (c3_generate_body "https://x" none "Finding inner peace" none JsOpt.undef none
      (by decide)).1⟩

/-- C5: after a failing tracked call (`generate` or `getVoiceProfile`),
`isLoading` is `false`, `error` holds the normalized failure (non-null),
the previously stored `content` is untouched, and the normalized failure
is re-raised to the caller. -/
theorem c5_failure_settlement (s : LifecycleState) (t : JsThrown) :
    (hookGenerate s (CallOutcome.failure t)).1.isLoading = false ∧
    (hookGenerate s (CallOutcome.failure t)).1.error = some (normalizeThrown t) ∧
    (hookGenerate s (CallOutcome.failure t)).1.error ≠ none ∧
    (hookGenerate s (CallOutcome.failure t)).1.content = s.content ∧
    (hookGenerate s (CallOutcome.failure t)).2
        = Except.error (normalizeThrown t) ∧
    (hookGetVoiceProfile s (CallOutcome.failure t)).1.isLoading = false ∧
    (hookGetVoiceProfile s (CallOutcome.failure t)).1.error
        = some (normalizeThrown t) ∧
    (hookGetVoiceProfile s (CallOutcome.failure t)).1.content = s.content ∧
    (hookGetVoiceProfile s (CallOutcome.failure t)).2
        = Except.error (normalizeThrown t) :=
  ⟨rfl, rfl, Option.some_ne_none _, rfl, rfl, rfl, rfl, rfl, rfl⟩

/-- C6: immediately upon invoking a tracked call — before settlement —
`isLoading` is `true` and `error` is `null`, for every prior state; both
`generate` and `getVoiceProfile` factor through this prologue. -/
theorem c6_inflight_state (s : LifecycleState) :
    (trackedStart s).isLoading = true ∧
    (trackedStart s).error = none ∧
    (∀ o : CallOutcome, hookGenerate s o = generateSettle (trackedStart s) o) ∧
    (∀ o : CallOutcome,
        hookGetVoiceProfile s o = getVoiceProfileSettle (trackedStart s) o) :=
  ⟨rfl, rfl, fun _ => rfl, fun _ => rfl⟩

/-- C7, counterexample: normalization removes exactly one trailing slash,
so it is not idempotent: `"https://x//"` normalizes to `"https://x/"`,
which normalizes again to `"https://x"`. -/
theorem c7_counterexample :
    stripTrailingSlash (stripTrailingSlash "https://x//")
      ≠ stripTrailingSlash "https://x//" := by
  decide

/-- C7, amended: normalization strips exactly one trailing `/` if present,
so `"https://x/"` and `"https://x"` yield identical request URLs for every
endpoint path; normalization is idempotent exactly on inputs whose
normalized form has no trailing slash (i.e. inputs not ending in `//`),
and `"https://x//"` is a counterexample to unrestricted idempotence. -/
theorem c7_normalization (ep s : String) :
    requestUrl "https://x/" ep = requestUrl "https://x" ep ∧
    (endsWithSlash s = true → stripTrailingSlash s = String.mk s.data.dropLast) ∧
    (endsWithSlash s = false → stripTrailingSlash s = s) ∧
    (endsWithSlash (stripTrailingSlash s) = false →
        stripTrailingSlash (stripTrailingSlash s) = stripTrailingSlash s) := by
  refine ⟨?_, ?_, ?_, ?_⟩
  · show stripTrailingSlash "https://x/" ++ ep = stripTrailingSlash "https://x" ++ ep
    rw [show stripTrailingSlash "https://x/" = "https://x" by decide,
        show stripTrailingSlash "https://x" = "https://x" by decide]
  · intro h
    simp [stripTrailingSlash, h]
  · intro h
    simp [stripTrailingSlash, h]
  · intro h
    rw [show stripTrailingSlash (stripTrailingSlash s)
          = if endsWithSlash (stripTrailingSlash s)
            then String.mk (stripTrailingSlash s).data.dropLast
            else stripTrailingSlash s
        from rfl, h]
    simp

theorem c7_normalization_witness :
    requestUrl "https://x/" "/generate" = requestUrl "https://x" "/generate" ∧
    stripTrailingSlash "https://x/" = String.mk ("https://x/").data.dropLast ∧
    stripTrailingSlash "https://x" = "https://x" ∧
    stripTrailingSlash (stripTrailingSlash "https://x/")
      = stripTrailingSlash "https://x/" :=
  ⟨(c7_normalization "/generate" "https://x/").1,
   (c7_normalization "/generate" "https://x/").2.1 (by decide),
   (c7_normalization "/generate" "https://x").2.2.1 (by decide),
   (c7_normalization "/generate" "https://x/").2.2.2 (by decide)⟩

/-- C8: `generateArticle(topic, context)` issues exactly the request of
`generate(topic, 'article', context)` and resolves to the `content` field
of `generate`'s result, rejecting exactly when `generate` rejects. -/
theorem c8_generateArticle_equiv (baseUrl : String) (apiKey : Option String)
    (topic : String) (ctx : JsOpt) (resp : FetchResponse) :
    generateArticleRequestJs baseUrl apiKey topic ctx
        = generateRequestJs baseUrl apiKey topic (some "article") ctx none ∧
    (∀ j : Json, generateResult resp = Except.ok j →
        generateArticleResult resp = Except.ok (jsField j "content")) ∧
    (∀ e : RequestFailure, generateResult resp = Except.error e →
        generateArticleResult resp = Except.error e) := by
  refine ⟨?_, ?_, ?_⟩
  · cases ctx with
    | undef => rfl
    | null => rfl
    | str s => rfl
  · intro j h
    unfold generateArticleResult
    rw [h]
    rfl
  · intro e h
    unfold generateArticleResult
    rw [h]
    rfl

theorem c8_generateArticle_equiv_witness :
    generateResult ⟨200, some (Json.obj [("content", Json.str "hello")])⟩
        = Except.ok (Json.obj [("content", Json.str "hello")]) ∧
    generateArticleResult ⟨200, some (Json.obj [("content", Json.str "hello")])⟩
        = Except.ok (some (Json.str "hello")) ∧
    generateArticleResult ⟨500, none⟩
        = Except.error (RequestFailure.httpError "Unknown error") :=
  ⟨rfl,
   (c8_generateArticle_equiv "https://x" none "t" JsOpt.undef
      ⟨200, some (Json.obj [("content", Json.str "hello")])⟩).2.1
      (Json.obj [("content", Json.str "hello")]) rfl,
   (c8_generateArticle_equiv "https://x" none "t" JsOpt.undef ⟨500, none⟩).2.2
      (RequestFailure.httpError "Unknown error") rfl⟩

/-- C9: `clearError()` sets `error` to `null` and leaves `content` and
`isLoading` unchanged; `clearContent()` sets `content` to `null` and
leaves `error` and `isLoading` unchanged — both independent of the call
lifecycle. -/
theorem c9_clear_operations (s : LifecycleState) :
    (clearError s).error = none ∧
    (clearError s).content = s.content ∧
    (clearError s).isLoading = s.isLoading ∧
    (clearContent s).content = none ∧
    (clearContent s).error = s.error ∧
    (clearContent s).isLoading = s.isLoading :=
  ⟨rfl, rfl, rfl, rfl, rfl, rfl⟩

/-- C10, counterexample: with an explicit `null` additionalContext the JS
variant serializes `additional_context: null` (its default parameter only
fires on `undefined`), while the TS variant's `|| ''` normalizes `null` to
the empty string — the bodies differ. -/
theorem c10_counterexample :
    generateBodyJs "t" none JsOpt.null none
      ≠ generateBodyTs "t" none JsOpt.null none := by
  intro h
  simp [generateBodyJs, generateBodyTs, jsDefaultStr] at h

/-- C10, amended: the JS and TS `generate` variants build identical request
bodies and identical requests for every absent/undefined or string
additionalContext; they differ only at an explicit `null`, where JS emits
`additional_context: null` and TS emits `""`. -/
theorem c10_variants_equiv (baseUrl : String) (apiKey : Option String)
    (topic : String) (format : Option String) (ctx : JsOpt)
    (promptOnly : Option Bool) (hvalid : ctx ≠ JsOpt.null) :
    generateBodyJs topic format ctx promptOnly
        = generateBodyTs topic format ctx promptOnly ∧
    generateRequestJs baseUrl apiKey topic format ctx promptOnly
        = generateRequestTs baseUrl apiKey topic format ctx promptOnly := by
  have hbody : generateBodyJs topic format ctx promptOnly
      = generateBodyTs topic format ctx promptOnly := by
    cases ctx with
    | undef => rfl
    | null => exact absurd rfl hvalid
    | str s =>
        have hs : (if s = "" then "" else s) = s := by
          by_cases h : s = "" <;> simp [h]
        simp [generateBodyJs, generateBodyTs, jsDefaultStr, hs]
  exact ⟨hbody, by simp [generateRequestJs, generateRequestTs, hbody]⟩

theorem c10_variants_equiv_witness :
    (JsOpt.str "for students" ≠ JsOpt.null) ∧
    generateBodyJs "t" none (JsOpt.str "for students") none
      = generateBodyTs "t" none (JsOpt.str "for students") none :=
  ⟨by decide,
    (c10_variants_equiv "https://x" none "t" none (JsOpt.str "for students") none
      (by decide)).1⟩

end ShayaClient
